import Mathlib

/-!
Shallow embedding of the INSEC server (Go sources under `server/`:
`models.go`, `middleware.go`, `main.go`) and proofs about its ingestion,
query, detection and authentication logic.

Conventions of the embedding:
* Go `*T` (nullable pointer) fields become `Option T`.
* `time.Time` values become abstract instants `Nat`.
* Go numeric field types (`uint`, `uint32`, `uint64`, `uint16`, `int`)
  become `Nat`/`Int`; no arithmetic in the modelled code paths can
  overflow a 64-bit machine word, so wrap-around is not modelled.
* `map[string]interface{}` values that the code only ever fills with
  string entries (`Alert.Entities`) become association lists
  `List (String × String)`.
* The persistence layer (GORM over the transactional relational store
  the spec assumes) is modelled as an atomic list append that either
  wholly succeeds or wholly fails, selected by an explicit boolean
  outcome parameter; per-call outcomes during detection are an oracle
  `Nat → Bool` indexed by attempt number.
* `ProcessInfo.CPUUsage` (a `float32`) is omitted: floating point is
  not modelled and no modelled code path reads it.
-/

namespace Insec

/-- `server/models.go` `User` (embedded in `Event`). -/
structure User where
  id : String
  email : String
  dept : String
  riskScore : Option Int
  deriving Repr, DecidableEq

/-- `server/models.go` `OS`. -/
structure OS where
  family : String
  version : String
  arch : String
  deriving Repr, DecidableEq

/-- `server/models.go` `EventData`. -/
structure EventData where
  type : String
  id : String
  category : String
  deriving Repr, DecidableEq

/-- `server/models.go` `ProcessInfo` (`cpu_usage : float32` omitted, see header). -/
structure ProcessInfo where
  name : String
  cmd : List String
  ppid : Nat
  pid : Nat
  hash : Option String
  user : Option String
  memoryUsage : Nat
  deriving Repr, DecidableEq

/-- `server/models.go` `NetworkInfo`. -/
structure NetworkInfo where
  srcIP : Option String
  dstIP : String
  dstPort : Nat
  protocol : String
  bytesIn : Nat
  bytesOut : Nat
  domain : Option String
  deriving Repr, DecidableEq

/-- `server/models.go` `FileInfo`. -/
structure FileInfo where
  path : String
  operation : String
  size : Option Nat
  hash : Option String
  user : Option String
  deriving Repr, DecidableEq

/-- `server/models.go` `Agent`. -/
structure Agent where
  version : String
  mode : String
  hostname : String
  deriving Repr, DecidableEq

/-- `server/models.go` `Event`. -/
structure Event where
  id : Nat
  timestamp : Nat
  tenantID : String
  hostID : String
  user : User
  os : OS
  event : EventData
  process : Option ProcessInfo
  network : Option NetworkInfo
  file : Option FileInfo
  labels : List String
  riskHints : List String
  agent : Agent
  sessionID : String
  createdAt : Nat
  updatedAt : Nat
  deriving Repr, DecidableEq

/-- `server/models.go` `Alert`. -/
structure Alert where
  id : Nat
  createdAt : Nat
  severity : String
  title : String
  description : String
  tenantID : String
  ruleID : String
  ruleVersion : String
  uebaScore : Int
  entities : List (String × String)
  evidence : List String
  status : String
  assignee : Option String
  resolvedAt : Option Nat
  deriving Repr, DecidableEq

/-- The security context the auth middleware attaches to a request
(`c.Set` of `user_id`, `tenant_id`, `role` in `middleware.go`). -/
structure SecurityContext where
  userID : String
  tenantID : String
  role : String
  deriving Repr, DecidableEq

/-- Server-side storage visible to the handlers: the events table and the
alerts table of the transactional store. -/
structure Storage where
  events : List Event
  alerts : List Alert
  deriving Repr, DecidableEq

/-! ### String helpers mirroring Go's `strings` package -/

/-- Whether `p` is a prefix of `s` (over character lists). -/
def isPrefixList : List Char → List Char → Bool
  | [], _ => true
  | _ :: _, [] => false
  | p :: ps, c :: cs => p == c && isPrefixList ps cs

/-- Substring occurrence over character lists: `pat` occurs somewhere in `s`. -/
def containsSub : List Char → List Char → Bool
  | [], pat => pat.isEmpty
  | c :: cs, pat => isPrefixList pat (c :: cs) || containsSub cs pat

/-- Go `strings.Contains s pat`. -/
def strContains (s pat : String) : Bool :=
  containsSub s.data pat.data

/-- Go `strings.TrimPrefix s pre`: drops `pre` when it is a prefix of `s`,
otherwise returns `s` unchanged. -/
def trimPrefixGo (s pre : String) : String :=
  if isPrefixList pre.data s.data then ⟨s.data.drop pre.data.length⟩ else s

/-! ### Detection engine (`models.go` `processEventsForAlerts`, `createAlert`) -/

/-- The fixed vocabulary `suspiciousCmds` of `processEventsForAlerts`. -/
def suspiciousCmds : List String :=
  ["netcat", "ncat", "wget", "curl", "scp", "rclone"]

/-- `models.go` `createAlert`: the alert record built from the triggering
event, before the store assigns an id. `now` is the server clock. -/
def createAlert (event : Event) (title severity : String) (now : Nat) : Alert :=
  { id := 0
    createdAt := now
    severity := severity
    title := title
    description := ""
    tenantID := event.tenantID
    ruleID := "RULE_AUTO"
    ruleVersion := "1.0"
    uebaScore := 75
    entities := [("user", event.user.id), ("host", event.hostID)]
    evidence := [event.event.id]
    status := "open"
    assignee := none
    resolvedAt := none }

/-- The `createAlert` calls the suspicious-process check of
`processEventsForAlerts` issues for one event, as `(title, severity)`
pairs in loop order: one per argv token containing a vocabulary string
(the inner `break` stops after the first vocabulary hit for a token). -/
def procMatches (event : Event) : List (String × String) :=
  match event.process with
  | none => []
  | some p =>
      p.cmd.filterMap fun cmd =>
        if suspiciousCmds.any (fun suspicious => strContains cmd suspicious) then
          some ("Suspicious data transfer tool detected", "high")
        else
          none

/-- The `createAlert` call the large-file check of
`processEventsForAlerts` issues for one event (the `*event.File.Size >
100*1024*1024` guard behind the two nil checks). -/
def fileMatches (event : Event) : List (String × String) :=
  match event.file with
  | some f =>
      match f.size with
      | some sz => if sz > 100 * 1024 * 1024 then [("Large file operation detected", "medium")] else []
      | none => []
  | none => []

/-- All `createAlert` calls one event triggers in `processEventsForAlerts`,
in source order: the suspicious-process loop, then the large-file check. -/
def eventRuleMatches (event : Event) : List (String × String) :=
  procMatches event ++ fileMatches event

/-- The alerts one event contributes in a detection pass. -/
def eventAlerts (event : Event) (now : Nat) : List Alert :=
  (eventRuleMatches event).map fun m => createAlert event m.1 m.2 now

/-- `models.go` `processEventsForAlerts`: the alerts a detection pass over a
batch attempts to create, in order. -/
def processEventsForAlerts (events : List Event) (now : Nat) : List Alert :=
  match events with
  | [] => []
  | e :: rest => eventAlerts e now ++ processEventsForAlerts rest now

/-! ### Detection run with per-alert persistence outcomes
(`createAlert`'s `db.Create` either succeeds or fails; the failure is
logged and never propagated, so the loop in `processEventsForAlerts`
continues with the next token/event either way). -/

/-- State threaded through one background detection pass:
persisted alerts, the full trace of attempted `db.Create` calls, and the
log lines `createAlert` emits. -/
structure DetectionState where
  alerts : List Alert
  attempted : List Alert
  log : List String
  deriving Repr, DecidableEq

/-- The empty detection state a fresh pass starts from. -/
def initDetection : DetectionState := ⟨[], [], []⟩

/-- One `createAlert` persistence attempt: on success the alert is stored
and a success line logged; on failure the store is untouched and the
failure logged.  Either way control returns to the caller. -/
def runCreateAlert (st : DetectionState) (ok : Bool) (a : Alert) : DetectionState :=
  if ok then
    { alerts := st.alerts ++ [a]
      attempted := st.attempted ++ [a]
      log := st.log ++ ["Created alert"] }
  else
    { alerts := st.alerts
      attempted := st.attempted ++ [a]
      log := st.log ++ ["Failed to create alert"] }

/-- Run the persistence attempts for a list of alerts; `oracle n` decides
whether the `n`-th `db.Create` of the pass succeeds. -/
def runAlerts (oracle : Nat → Bool) (st : DetectionState) : List Alert → DetectionState
  | [] => st
  | a :: as => runAlerts oracle (runCreateAlert st (oracle st.attempted.length) a) as

/-- One whole background detection pass over a batch, with per-alert
persistence outcomes chosen by `oracle`. -/
def runDetection (oracle : Nat → Bool) (now : Nat) (st : DetectionState) :
    List Event → DetectionState
  | [] => st
  | e :: rest => runDetection oracle now (runAlerts oracle st (eventAlerts e now)) rest

/-! ### Ingestion endpoint (`models.go` `IngestEvents`) -/

/-- An HTTP response: status code and, when the handler answers with the
ingestion receipt, the `{status, count}` body. -/
structure IngestResponse where
  httpStatus : Nat
  body : Option (String × Nat)
  deriving Repr, DecidableEq

/-- The per-event loop of `IngestEvents` before the bulk insert: clear the
id so the store assigns one, and set the server-side timestamps. -/
def stampIngest (now : Nat) (e : Event) : Event :=
  { e with id := 0, createdAt := now, updatedAt := now }

/-- `models.go` `IngestEvents`.  `parsed` is the outcome of
`c.ShouldBindJSON` (`none` = the body does not deserialize into `[]Event`);
`dbOk` is the outcome of the atomic bulk insert (`CreateInBatch` on the
transactional store: wholly applied on success, storage unchanged on
failure); `now` is the server clock.  Returns the new storage and the
response. -/
def ingestEvents (parsed : Option (List Event)) (dbOk : Bool) (now : Nat)
    (st : Storage) : Storage × IngestResponse :=
  match parsed with
  | none => (st, ⟨400, none⟩)
  | some events =>
      let stamped := events.map (stampIngest now)
      if dbOk then
        ({ st with events := st.events ++ stamped }, ⟨200, some ("ok", events.length)⟩)
      else
        (st, ⟨500, none⟩)

/-! ### Query endpoints (`models.go` `GetEvents`, `GetAlerts`)

Query-string parameters mirror gin: `c.Query` yields `""` for an absent
parameter and the handlers skip a filter exactly when the parameter is
`""`.  The `start_time`/`end_time` parameters are modelled post-parse as
`Option Nat`: `some t` when the parameter is present and RFC3339-parses,
`none` (no filter) when absent or unparsable.  `page`/`limit` are the
`strconv.Atoi` results (gin defaults `"1"`/`"50"`; `Atoi` failure yields
`0`, its error being discarded). -/

/-- Parameters of `GET /v1/events`. -/
structure EventQuery where
  tenantID : String
  hostID : String
  eventType : String
  startTime : Option Nat
  endTime : Option Nat
  page : Int
  limit : Int
  deriving Repr, DecidableEq

/-- Parameters of `GET /v1/alerts`. -/
structure AlertQuery where
  tenantID : String
  status : String
  severity : String
  page : Int
  limit : Int
  deriving Repr, DecidableEq

/-- GORM `Offset(offset).Limit(limit)`: a non-positive offset is not
applied, a negative limit is not applied. -/
def paginate (offset limit : Int) (rows : List α) : List α :=
  let afterOffset := if offset ≤ 0 then rows else rows.drop offset.toNat
  if limit < 0 then afterOffset else afterOffset.take limit.toNat

/-- `models.go` `GetEvents`.  The handler receives the request's security
context (`ctx`, attached by `AuthMiddleware`) but never reads it: every
filter comes from the client-supplied query string.  Returns the
`{events, page, limit}` payload. -/
def getEvents (_ctx : SecurityContext) (q : EventQuery) (st : Storage) :
    List Event × Int × Int :=
  let filtered := st.events.filter fun e =>
    (q.tenantID == "" || e.tenantID == q.tenantID) &&
    (q.hostID == "" || e.hostID == q.hostID) &&
    (q.eventType == "" || e.event.type == q.eventType) &&
    (match q.startTime with | none => true | some t => t ≤ e.timestamp) &&
    (match q.endTime with | none => true | some t => e.timestamp ≤ t)
  (paginate ((q.page - 1) * q.limit) q.limit filtered, q.page, q.limit)

/-- Insertion of an alert into a list sorted by `created_at DESC`. -/
def insertByCreatedDesc (a : Alert) : List Alert → List Alert
  | [] => [a]
  | b :: bs => if b.createdAt ≥ a.createdAt then b :: insertByCreatedDesc a bs else a :: b :: bs

/-- Sort alerts by `created_at DESC` (the `Order` clause of `GetAlerts`). -/
def sortByCreatedDesc : List Alert → List Alert
  | [] => []
  | a :: as => insertByCreatedDesc a (sortByCreatedDesc as)

/-- `models.go` `GetAlerts`.  As with `getEvents`, the security context is
present but unread; filters come from the client-supplied query string. -/
def getAlerts (_ctx : SecurityContext) (q : AlertQuery) (st : Storage) :
    List Alert × Int × Int :=
  let filtered := st.alerts.filter fun a =>
    (q.tenantID == "" || a.tenantID == q.tenantID) &&
    (q.status == "" || a.status == q.status) &&
    (q.severity == "" || a.severity == q.severity)
  (paginate ((q.page - 1) * q.limit) q.limit (sortByCreatedDesc filtered), q.page, q.limit)

/-! ### Auth middleware (`middleware.go` `AuthMiddleware`) -/

/-- The JWT claims of `middleware.go` (registered claims beyond the three
custom fields are consumed by the jwt library, modelled inside
`TokenVerdict`). -/
structure Claims where
  userID : String
  tenantID : String
  role : String
  deriving Repr, DecidableEq

/-- Outcome of `jwt.ParseWithClaims` + `token.Valid` for a token string
under the server's secret: either valid with the embedded claims, or one
of the invalid cases the library reports through `err`/`!token.Valid`. -/
inductive TokenVerdict where
  | valid (claims : Claims)
  | badSignature
  | expired
  | malformedToken
  deriving Repr, DecidableEq

/-- Result of the middleware: an error response (it aborts the chain) or
the security context attached for downstream handlers. -/
inductive AuthResult where
  | unauthorized (httpStatus : Nat) (message : String)
  | authorized (ctx : SecurityContext)
  deriving Repr, DecidableEq

/-- `middleware.go` `AuthMiddleware`.  `verify` is the jwt library's
verdict on a token string under the configured secret; `authHeader` is
`c.GetHeader "Authorization"` (gin yields `""` when absent). -/
def authMiddleware (verify : String → TokenVerdict) (authHeader : String) : AuthResult :=
  if authHeader == "" then
    .unauthorized 401 "Authorization header required"
  else
    let tokenString := trimPrefixGo authHeader "Bearer "
    if tokenString == authHeader then
      .unauthorized 401 "Bearer token required"
    else
      match verify tokenString with
      | .valid claims => .authorized ⟨claims.userID, claims.tenantID, claims.role⟩
      | _ => .unauthorized 401 "Invalid token"

/-! ### Statement vocabulary and helper lemmas -/

/-- Number of high-severity suspicious-transfer-tool alerts in a list. -/
def susCount (alerts : List Alert) : Nat :=
  (alerts.filter fun a =>
    a.title == "Suspicious data transfer tool detected" && a.severity == "high").length

/-- Number of medium-severity large-file alerts in a list. -/
def largeCount (alerts : List Alert) : Nat :=
  (alerts.filter fun a =>
    a.title == "Large file operation detected" && a.severity == "medium").length

/-- Number of argv tokens of the event's process descriptor that contain a
string of the suspicious vocabulary (0 when no process descriptor). -/
def matchingTokenCount (e : Event) : Nat :=
  match e.process with
  | none => 0
  | some p => (p.cmd.filter fun cmd => suspiciousCmds.any fun s => strContains cmd s).length

/-- Whether the event's file descriptor reports a size above the 100 MiB
threshold of the large-file rule. -/
def fileExceedsLimit (f : FileInfo) : Bool :=
  match f.size with
  | some sz => sz > 100 * 1024 * 1024
  | none => false

theorem susCount_append (xs ys : List Alert) :
    susCount (xs ++ ys) = susCount xs + susCount ys := by
  simp [susCount, List.filter_append]

theorem filterMap_if_const {α β : Type} (p : α → Bool) (k : β) (l : List α) :
    (l.filterMap fun x => if p x then some k else none) = (l.filter p).map fun _ => k := by
  induction l with
  | nil => rfl
  | cons x xs ih =>
      by_cases hx : p x <;> simp [List.filterMap_cons, List.filter_cons, hx, ih]

theorem largeCount_append (xs ys : List Alert) :
    largeCount (xs ++ ys) = largeCount xs + largeCount ys := by
  simp [largeCount, List.filter_append]

theorem susCount_map_createAlert (e : Event) (now : Nat) (ms : List (String × String)) :
    susCount (ms.map fun m => createAlert e m.1 m.2 now) =
      (ms.filter fun m =>
        m.1 == "Suspicious data transfer tool detected" && m.2 == "high").length := by
  induction ms with
  | nil => rfl
  | cons m rest ih =>
      simp only [List.map_cons, susCount, List.filter_cons, createAlert] at ih ⊢
      by_cases h : (m.1 == "Suspicious data transfer tool detected" && m.2 == "high") = true <;>
        simp [h, ih]

theorem largeCount_map_createAlert (e : Event) (now : Nat) (ms : List (String × String)) :
    largeCount (ms.map fun m => createAlert e m.1 m.2 now) =
      (ms.filter fun m =>
        m.1 == "Large file operation detected" && m.2 == "medium").length := by
  induction ms with
  | nil => rfl
  | cons m rest ih =>
      simp only [List.map_cons, largeCount, List.filter_cons, createAlert] at ih ⊢
      by_cases h : (m.1 == "Large file operation detected" && m.2 == "medium") = true <;>
        simp [h, ih]

theorem eventAlerts_map (e : Event) (now : Nat) :
    eventAlerts e now =
      ((procMatches e).map fun m => createAlert e m.1 m.2 now) ++
        ((fileMatches e).map fun m => createAlert e m.1 m.2 now) := by
  simp [eventAlerts, eventRuleMatches, List.map_append]

theorem susCount_eventAlerts (e : Event) (now : Nat) :
    susCount (eventAlerts e now) = matchingTokenCount e := by
  rw [eventAlerts_map, susCount_append, susCount_map_createAlert, susCount_map_createAlert,
    matchingTokenCount]
  cases hp : e.process with
  | none =>
      simp only [procMatches, hp, List.filter_nil, List.length_nil, Nat.zero_add]
      cases hf : e.file with
      | none => simp [fileMatches, hf]
      | some f =>
          cases hs : f.size with
          | none => simp [fileMatches, hf, hs]
          | some sz =>
              by_cases hsz : sz > 100 * 1024 * 1024 <;>
                simp [fileMatches, hf, hs, hsz]
  | some p =>
      simp only [procMatches, hp]
      rw [filterMap_if_const, List.filter_map]
      have hfile : ((fileMatches e).filter fun m =>
          m.1 == "Suspicious data transfer tool detected" && m.2 == "high").length = 0 := by
        cases hf : e.file with
        | none => simp [fileMatches, hf]
        | some f =>
            cases hs : f.size with
            | none => simp [fileMatches, hf, hs]
            | some sz =>
                by_cases hsz : sz > 100 * 1024 * 1024 <;> simp [fileMatches, hf, hs, hsz]
      rw [hfile]
      simp [Function.comp]

theorem largeCount_eventAlerts (e : Event) (now : Nat) (f : FileInfo)
    (hf : e.file = some f) :
    largeCount (eventAlerts e now) = if fileExceedsLimit f then 1 else 0 := by
  rw [eventAlerts_map, largeCount_append, largeCount_map_createAlert, largeCount_map_createAlert]
  have hproc : ((procMatches e).filter fun m =>
      m.1 == "Large file operation detected" && m.2 == "medium").length = 0 := by
    cases hp : e.process with
    | none => simp [procMatches, hp]
    | some p =>
        simp only [procMatches, hp]
        rw [filterMap_if_const, List.filter_map]
        simp [Function.comp]
  rw [hproc]
  obtain ⟨fpath, fop, fsize, fhash, fuser⟩ := f
  simp only [fileMatches, fileExceedsLimit, hf, Nat.zero_add]
  cases fsize with
  | none => simp
  | some sz => by_cases hsz : sz > 100 * 1024 * 1024 <;> simp [hsz]

/-! ### Concrete fixtures used by witnesses and counterexamples -/

/-- A baseline event of tenant `t1` with no optional descriptors. -/
def baseEvent : Event :=
  { id := 0
    timestamp := 5
    tenantID := "t1"
    hostID := "h1"
    user := ⟨"u1", "u1@example.com", "eng", none⟩
    os := ⟨"linux", "6.1", "x86_64"⟩
    event := ⟨"process", "evt-1", "exec"⟩
    process := none
    network := none
    file := none
    labels := []
    riskHints := []
    agent := ⟨"1.0", "monitor", "host1"⟩
    sessionID := "s1"
    createdAt := 0
    updatedAt := 0 }

/-- An event whose argv holds exactly one suspicious token. -/
def curlEvent : Event :=
  { baseEvent with process := some ⟨"curl", ["curl", "https://x"], 1, 2, none, none, 0⟩ }

/-- An event whose argv holds two suspicious tokens. -/
def doubleCurlEvent : Event :=
  { baseEvent with process := some ⟨"sh", ["curl", "curl"], 1, 2, none, none, 0⟩ }

/-- A file descriptor of 150 MiB. -/
def bigFileInfo : FileInfo := ⟨"/tmp/x", "write", some (150 * 1024 * 1024), none, none⟩

/-- An event carrying the 150 MiB file descriptor. -/
def bigFileEvent : Event := { baseEvent with file := some bigFileInfo }

/-! ### Claim theorems: detection engine -/

theorem susCount_pass (events : List Event) (now : Nat) :
    susCount (processEventsForAlerts events now) = (events.map matchingTokenCount).sum := by
  induction events with
  | nil => rfl
  | cons e rest ih =>
      simp [processEventsForAlerts, susCount_append, susCount_eventAlerts, ih]

/-- C3 counterexample: the claim says one detection pass produces exactly
one suspicious-transfer-tool alert for an event whose argv contains a
suspicious token, but an event whose argv is `["curl", "curl"]` produces
two such alerts (the `break` in `processEventsForAlerts` only leaves the
inner vocabulary loop, not the loop over argv tokens). -/
theorem suspicious_tool_not_exactly_one :
    susCount (processEventsForAlerts [doubleCurlEvent] 7) = 2 ∧
    susCount (processEventsForAlerts [doubleCurlEvent] 7) ≠ 1 := by
  decide

/-- C3 (amended): one detection pass produces, per event, one high-severity
alert titled "Suspicious data transfer tool detected" for each argv token
of its process descriptor that case-sensitively contains a string of the
fixed vocabulary — so exactly one such alert when exactly one token
matches (e.g. `["curl", "https://x"]`) and none when no token matches or
there is no process descriptor. -/
theorem suspicious_tool_alert_per_token (events : List Event) (now : Nat) :
    susCount (processEventsForAlerts events now) = (events.map matchingTokenCount).sum ∧
    susCount (processEventsForAlerts [curlEvent] now) = 1 := by
  refine ⟨susCount_pass events now, ?_⟩
  rw [susCount_pass]
  decide

/-- C4: for every event carrying a file descriptor, one detection pass
produces exactly one medium-severity alert titled "Large file operation
detected" precisely when the descriptor's size exceeds 100*1024*1024
bytes, and none otherwise. -/
theorem large_file_alert_iff (e : Event) (now : Nat) (f : FileInfo)
    (hf : e.file = some f) :
    largeCount (processEventsForAlerts [e] now) = if fileExceedsLimit f then 1 else 0 := by
  have h : processEventsForAlerts [e] now = eventAlerts e now := by
    simp [processEventsForAlerts]
  rw [h]
  exact largeCount_eventAlerts e now f hf

/-- C4 witness: the 150 MiB event yields exactly one large-file alert. -/
theorem large_file_alert_iff_witness :
    largeCount (processEventsForAlerts [bigFileEvent] 7) = 1 := by
  rw [large_file_alert_iff bigFileEvent 7 bigFileInfo rfl]
  decide

/-- C8: every alert a detection pass creates takes its tenant id, its
entity map, its singleton evidence list and its `open` status from the
single triggering event of the batch; in particular the alert's tenant id
equals the tenant id of the one event referenced in its evidence list. -/
theorem alert_fields_from_triggering_event (events : List Event) (now : Nat) (a : Alert)
    (ha : a ∈ processEventsForAlerts events now) :
    ∃ e, e ∈ events ∧ a.tenantID = e.tenantID ∧
      a.entities = [("user", e.user.id), ("host", e.hostID)] ∧
      a.evidence = [e.event.id] ∧ a.status = "open" := by
  induction events with
  | nil => simp [processEventsForAlerts] at ha
  | cons e rest ih =>
      simp only [processEventsForAlerts, List.mem_append] at ha
      rcases ha with ha | ha
      · refine ⟨e, by simp, ?_⟩
        simp only [eventAlerts, List.mem_map] at ha
        obtain ⟨m, _, rfl⟩ := ha
        simp [createAlert]
      · obtain ⟨e2, he2, hrest⟩ := ih ha
        exact ⟨e2, by simp [he2], hrest⟩

/-- C8 witness: instantiated on the singleton batch holding `curlEvent`
and the alert that pass creates. -/
theorem alert_fields_from_triggering_event_witness :
    ∃ e, e ∈ [curlEvent] ∧
      (createAlert curlEvent "Suspicious data transfer tool detected" "high" 7).tenantID = e.tenantID ∧
      (createAlert curlEvent "Suspicious data transfer tool detected" "high" 7).entities =
        [("user", e.user.id), ("host", e.hostID)] ∧
      (createAlert curlEvent "Suspicious data transfer tool detected" "high" 7).evidence =
        [e.event.id] ∧
      (createAlert curlEvent "Suspicious data transfer tool detected" "high" 7).status = "open" :=
  alert_fields_from_triggering_event [curlEvent] 7 _ (by decide)

/-- C10: every alert the detection pass creates carries the constant rule
identity `RULE_AUTO`, version `1.0`, and risk score 75, whichever built-in
rule matched. -/
theorem alert_rule_identity_constant (events : List Event) (now : Nat) (a : Alert)
    (ha : a ∈ processEventsForAlerts events now) :
    a.ruleID = "RULE_AUTO" ∧ a.ruleVersion = "1.0" ∧ a.uebaScore = 75 := by
  induction events with
  | nil => simp [processEventsForAlerts] at ha
  | cons e rest ih =>
      simp only [processEventsForAlerts, List.mem_append] at ha
      rcases ha with ha | ha
      · simp only [eventAlerts, List.mem_map] at ha
        obtain ⟨m, _, rfl⟩ := ha
        simp [createAlert]
      · exact ih ha

/-- C10 witness: instantiated on the alert the large-file rule creates. -/
theorem alert_rule_identity_constant_witness :
    (createAlert bigFileEvent "Large file operation detected" "medium" 7).ruleID = "RULE_AUTO" ∧
    (createAlert bigFileEvent "Large file operation detected" "medium" 7).ruleVersion = "1.0" ∧
    (createAlert bigFileEvent "Large file operation detected" "medium" 7).uebaScore = 75 :=
  alert_rule_identity_constant [bigFileEvent] 7 _ (by decide)

/-! ### Claim theorems: ingestion endpoint -/

/-- C2: ingestion of a parsed batch is all-or-nothing: when the bulk
insert succeeds the whole stamped batch is appended to storage, and when
it fails the endpoint answers 500 and storage is exactly what it was —
no partial batch is ever visible. -/
theorem ingest_all_or_nothing (events : List Event) (dbOk : Bool) (now : Nat) (st : Storage) :
    (dbOk = true →
      (ingestEvents (some events) dbOk now st).1.events =
        st.events ++ events.map (stampIngest now) ∧
      (ingestEvents (some events) dbOk now st).2.httpStatus = 200) ∧
    (dbOk = false →
      (ingestEvents (some events) dbOk now st).2.httpStatus = 500 ∧
      (ingestEvents (some events) dbOk now st).1 = st) := by
  cases dbOk <;> simp [ingestEvents]

/-- C2 witness: a failed insert of a one-event batch answers 500 and
leaves the empty storage empty. -/
theorem ingest_all_or_nothing_witness :
    (ingestEvents (some [curlEvent]) false 7 ⟨[], []⟩).2.httpStatus = 500 ∧
    (ingestEvents (some [curlEvent]) false 7 ⟨[], []⟩).1 = ⟨[], []⟩ :=
  (ingest_all_or_nothing [curlEvent] false 7 ⟨[], []⟩).2 rfl

/-- C5: a well-formed batch of N events with valid (non-empty) tenant ids
whose insert succeeds is acknowledged with 200 and body
`(status ok, count N)`, and exactly N events are appended to storage. -/
theorem ingest_success_count (events : List Event) (now : Nat) (st : Storage)
    (_hvalid : ∀ e ∈ events, e.tenantID ≠ "") :
    (ingestEvents (some events) true now st).2 = ⟨200, some ("ok", events.length)⟩ ∧
    (ingestEvents (some events) true now st).1.events =
      st.events ++ events.map (stampIngest now) ∧
    (ingestEvents (some events) true now st).1.events.length =
      st.events.length + events.length := by
  simp [ingestEvents]

/-- C5 witness: a two-event batch is acknowledged with count 2. -/
theorem ingest_success_count_witness :
    (ingestEvents (some [curlEvent, bigFileEvent]) true 7 ⟨[], []⟩).2 =
      ⟨200, some ("ok", 2)⟩ ∧
    (ingestEvents (some [curlEvent, bigFileEvent]) true 7 ⟨[], []⟩).1.events.length = 2 := by
  have h := ingest_success_count [curlEvent, bigFileEvent] 7 ⟨[], []⟩ (by decide)
  exact ⟨h.1, h.2.2⟩

/-- C6: a request body that does not deserialize into the event-array
shape is answered with 400 and leaves storage — events and alerts alike —
exactly unchanged, whatever the state of the store. -/
theorem malformed_json_rejected (dbOk : Bool) (now : Nat) (st : Storage) :
    ingestEvents none dbOk now st = (st, ⟨400, none⟩) := rfl

/-! ### Claim theorems: auth middleware -/

/-- C7 counterexample: all failure cases do answer 401, but the response
bodies differ between an absent header and a malformed header, so the
caller can distinguish the failure cases — contradicting the claim that
nothing beyond "unauthorized" is leaked. -/
theorem auth_failure_distinguishable :
    authMiddleware (fun _ => .badSignature) "" =
      .unauthorized 401 "Authorization header required" ∧
    authMiddleware (fun _ => .badSignature) "Token abc" =
      .unauthorized 401 "Bearer token required" ∧
    authMiddleware (fun _ => .badSignature) "" ≠
      authMiddleware (fun _ => .badSignature) "Token abc" := by
  decide

/-- C7 (amended): each of the four failure cases is rejected with status
401 — an absent header with message "Authorization header required", a
header not of the shape `Bearer <token>` with "Bearer token required",
and a token whose jwt check yields no valid claims (in particular an
invalid signature or an expired token) with "Invalid token", so the
invalid-signature and expired cases receive identical responses — and
the three messages are pairwise distinct, so the absent-header,
malformed-header and bad-token failure families are distinguishable by
the caller. -/
theorem auth_failures_all_401 :
    (∀ (verify : String → TokenVerdict),
      authMiddleware verify "" = .unauthorized 401 "Authorization header required") ∧
    (∀ (verify : String → TokenVerdict) (header : String),
      header ≠ "" → trimPrefixGo header "Bearer " = header →
      authMiddleware verify header = .unauthorized 401 "Bearer token required") ∧
    (∀ (verify : String → TokenVerdict) (header : String),
      header ≠ "" → trimPrefixGo header "Bearer " ≠ header →
      (∀ claims, verify (trimPrefixGo header "Bearer ") ≠ .valid claims) →
      authMiddleware verify header = .unauthorized 401 "Invalid token") ∧
    ("Authorization header required" ≠ "Bearer token required" ∧
     "Authorization header required" ≠ "Invalid token" ∧
     "Bearer token required" ≠ "Invalid token") := by
  refine ⟨fun verify => rfl, ?_, ?_, by decide⟩
  · intro verify header hne htrim
    unfold authMiddleware
    dsimp only
    rw [if_neg (by simp [hne]), if_pos (by simp [htrim])]
  · intro verify header hne htrim hv
    unfold authMiddleware
    dsimp only
    rw [if_neg (by simp [hne]), if_neg (by simp [htrim])]
    cases h : verify (trimPrefixGo header "Bearer ") with
    | valid claims => exact absurd h (hv claims)
    | badSignature => rfl
    | expired => rfl
    | malformedToken => rfl

/-- C7 witness: a well-shaped header whose token has an invalid signature
is rejected with 401 "Invalid token". -/
theorem auth_failures_all_401_witness :
    authMiddleware (fun _ => TokenVerdict.badSignature) "Bearer x" =
      .unauthorized 401 "Invalid token" :=
  auth_failures_all_401.2.2.1 _ "Bearer x" (by decide) (by decide) (by intro claims; simp)

/-! ### Claim theorems: per-event failure isolation in detection -/

/-- The log a run of `k` consecutive persistence attempts produces when
the first of them is attempt number `n`. -/
def logEntries (oracle : Nat → Bool) : Nat → Nat → List String
  | _, 0 => []
  | n, k + 1 =>
      (if oracle n then "Created alert" else "Failed to create alert") ::
        logEntries oracle (n + 1) k

theorem logEntries_add (oracle : Nat → Bool) (k1 k2 n : Nat) :
    logEntries oracle n (k1 + k2) =
      logEntries oracle n k1 ++ logEntries oracle (n + k1) k2 := by
  induction k1 generalizing n with
  | zero => simp [logEntries]
  | succ k ih =>
      rw [Nat.succ_add, logEntries, logEntries, ih (n + 1), List.cons_append]
      ring_nf

theorem runAlerts_attempted (oracle : Nat → Bool) (as : List Alert) (st : DetectionState) :
    (runAlerts oracle st as).attempted = st.attempted ++ as := by
  induction as generalizing st with
  | nil => simp [runAlerts]
  | cons a rest ih =>
      rw [runAlerts, ih]
      cases h : oracle st.attempted.length <;> simp [runCreateAlert, h]

theorem runAlerts_log (oracle : Nat → Bool) (as : List Alert) (st : DetectionState) :
    (runAlerts oracle st as).log =
      st.log ++ logEntries oracle st.attempted.length as.length := by
  induction as generalizing st with
  | nil => simp [runAlerts, logEntries]
  | cons a rest ih =>
      rw [runAlerts, ih]
      cases h : oracle st.attempted.length <;>
        simp [runCreateAlert, h, logEntries, List.length_append]

theorem runDetection_spec (oracle : Nat → Bool) (now : Nat) (events : List Event)
    (st : DetectionState) :
    (runDetection oracle now st events).attempted =
      st.attempted ++ processEventsForAlerts events now ∧
    (runDetection oracle now st events).log =
      st.log ++ logEntries oracle st.attempted.length (processEventsForAlerts events now).length := by
  induction events generalizing st with
  | nil => simp [runDetection, processEventsForAlerts, logEntries]
  | cons e rest ih =>
      rw [runDetection]
      obtain ⟨ha, hl⟩ := ih (runAlerts oracle st (eventAlerts e now))
      constructor
      · rw [ha, runAlerts_attempted, processEventsForAlerts, List.append_assoc]
      · rw [hl, runAlerts_log, runAlerts_attempted, processEventsForAlerts,
          List.length_append, List.length_append, logEntries_add, List.append_assoc]

/-- C9: per-alert persistence failures inside a detection pass are
isolated: whatever the pattern of `db.Create` failures, every event of
the batch is still evaluated against both built-in rules — the trace of
attempted alerts is exactly the pure rule output for the whole batch —
and every attempt, each failure included, appends its own log line. -/
theorem detection_isolates_failures (oracle : Nat → Bool) (events : List Event) (now : Nat) :
    (runDetection oracle now initDetection events).attempted =
      processEventsForAlerts events now ∧
    (runDetection oracle now initDetection events).log =
      logEntries oracle 0 (processEventsForAlerts events now).length := by
  have h := runDetection_spec oracle now events initDetection
  simpa [initDetection] using h

/-! ### Claim theorems: tenant isolation of the query endpoints -/

/-- A caller authenticated for tenant `t1`. -/
def analystT1 : SecurityContext := ⟨"u1", "t1", "analyst"⟩

/-- A caller authenticated for tenant `t2`. -/
def analystT2 : SecurityContext := ⟨"u2", "t2", "analyst"⟩

/-- An event belonging to tenant `t2`. -/
def tenant2Event : Event := { baseEvent with tenantID := "t2" }

/-- An alert belonging to tenant `t2`. -/
def tenant2Alert : Alert :=
  createAlert tenant2Event "Suspicious data transfer tool detected" "high" 3

/-- Storage holding only tenant `t2` data. -/
def tenant2Storage : Storage := ⟨[tenant2Event], [tenant2Alert]⟩

/-- The query string `tenant_id=t2` on `GET /v1/events` (default page and
limit). -/
def t2EventQuery : EventQuery := ⟨"t2", "", "", none, none, 1, 50⟩

/-- The query string `tenant_id=t2` on `GET /v1/alerts`. -/
def t2AlertQuery : AlertQuery := ⟨"t2", "", "", 1, 50⟩

/-- C1 is violated by the code: `GetEvents` and `GetAlerts` filter only by
the client-supplied `tenant_id` query parameter and never read the
security-context tenant, so a caller authenticated for tenant `t1` who
passes `tenant_id=t2` receives tenant `t2`'s event and alert, and the
response does not depend on the caller's security context at all (the two
runs with tenant-`t1` and tenant-`t2` contexts coincide). -/
theorem cross_tenant_query_leak :
    (getEvents analystT1 t2EventQuery tenant2Storage).1 = [tenant2Event] ∧
    (getAlerts analystT1 t2AlertQuery tenant2Storage).1 = [tenant2Alert] ∧
    analystT1.tenantID ≠ tenant2Event.tenantID ∧
    analystT1.tenantID ≠ tenant2Alert.tenantID ∧
    getEvents analystT1 t2EventQuery tenant2Storage =
      getEvents analystT2 t2EventQuery tenant2Storage ∧
    getAlerts analystT1 t2AlertQuery tenant2Storage =
      getAlerts analystT2 t2AlertQuery tenant2Storage := by
  decide

end Insec
